import Mathlib

/-!
Verification of the devtools deployment driver (`src/devtools.py`) against its
specification.  The Python source is shallowly embedded: pure helpers become
Lean functions, the effectful driver `DevToolDeploy.deploy` becomes a trace
function over the outcomes of its probe and download hooks, and exceptions are
modelled with `Except`.
-/

/-- Mirrors `DevToolDescriptor.__init__`: the record of a tool's identity and
provisioning metadata.  The Python attribute `prefix` is named `pfx` here;
`curr_version` starts empty, exactly as in the constructor. -/
structure DevToolDescriptor where
  pkgname : String
  cmd : String
  version : String
  min_version : String := ""
  curr_version : String := ""
  url : Option String := none
  branch : String := ""
  pfx : Option String := none
  platform : String := "linux"
deriving Repr, DecidableEq

/-- Python tuple comparison `<` on integer tuples, as used by
`tuple(map(int, v.split("."))) < tuple(...)`: elementwise, first difference
decides, and a proper prefix is strictly smaller than the longer tuple. -/
def tupleLt : List Int → List Int → Bool
  | [], [] => false
  | [], _ :: _ => true
  | _ :: _, [] => false
  | a :: as, b :: bs => if a < b then true else if b < a then false else tupleLt as bs

/-- Auxiliary digit-run accumulator for `parsePyInt`. -/
def digitsToNat (cs : List Char) : Nat :=
  cs.foldl (fun acc c => acc * 10 + (c.toNat - 48)) 0

/-- Python `int(s)` restricted to the version-component strings that occur
here: an optional sign followed by a nonempty digit run.  Returns `none` where
`int()` would raise `ValueError`. -/
def parsePyInt (s : List Char) : Option Int :=
  let core (cs : List Char) : Option Nat :=
    if cs.isEmpty then none
    else if cs.all Char.isDigit then some (digitsToNat cs)
    else none
  match s with
  | '-' :: rest => (core rest).map (fun n => -(n : Int))
  | '+' :: rest => (core rest).map (fun n => (n : Int))
  | cs => (core cs).map (fun n => (n : Int))

/-- Split a character list on `.` separators, Python `str.split(".")` style:
`"".split(".")` is `[""]`, and empty components are kept. -/
def splitOnDot : List Char → List (List Char)
  | [] => [[]]
  | c :: cs =>
    if c == '.' then [] :: splitOnDot cs
    else
      match splitOnDot cs with
      | [] => [[c]]
      | g :: gs => (c :: g) :: gs

/-- Mirrors `DTUtils.version_lt`: split both strings on `.`, convert each
component with `int`, compare the tuples.  `none` models the `ValueError`
raised on a non-integer component. -/
def version_lt (v1 v2 : String) : Option Bool := do
  let t1 ← (splitOnDot v1.data).mapM parsePyInt
  let t2 ← (splitOnDot v2.data).mapM parsePyInt
  some (tupleLt t1 t2)

/-- Maximal digit prefix of a character list, with the remainder. -/
def takeDigits : List Char → List Char × List Char
  | [] => ([], [])
  | c :: cs =>
    if c.isDigit then
      let (d, r) := takeDigits cs
      (c :: d, r)
    else ([], c :: cs)

/-- Match of the regex `\d+\.\d+(\.\d+)?` anchored at the head of the list.
Digit runs are taken maximally; since shortening a digit run can never make
the following `.` match, this is exactly the backtracking regex semantics. -/
def matchVersionAt (cs : List Char) : Option (List Char) :=
  let (d1, r1) := takeDigits cs
  if d1.isEmpty then none
  else
    match r1 with
    | '.' :: r2 =>
      let (d2, r3) := takeDigits r2
      if d2.isEmpty then none
      else
        match r3 with
        | '.' :: r4 =>
          let (d3, _) := takeDigits r4
          if d3.isEmpty then some (d1 ++ '.' :: d2)
          else some (d1 ++ '.' :: d2 ++ '.' :: d3)
        | _ => some (d1 ++ '.' :: d2)
    | _ => none

/-- Leftmost match of `\d+\.\d+(\.\d+)?`, i.e. `re.search` over positions from
the left. -/
def searchVersionAux : List Char → Option (List Char)
  | [] => none
  | c :: cs =>
    match matchVersionAt (c :: cs) with
    | some m => some m
    | none => searchVersionAux cs

/-- Mirrors `re.search(r"\d+\.\d+(\.\d+)?", s).group(0)`; `none` models the
`AttributeError` path (no match found). -/
def searchVersion (s : String) : Option String :=
  (searchVersionAux s.data).map List.asString

/-- Boolean prefix test on character lists. -/
def isPrefixList : List Char → List Char → Bool
  | [], _ => true
  | _ :: _, [] => false
  | a :: as, b :: bs => a == b && isPrefixList as bs

/-- Boolean infix (substring) test on character lists. -/
def listInfixB (needle : List Char) : List Char → Bool
  | [] => needle.isEmpty
  | c :: rest => isPrefixList needle (c :: rest) || listInfixB needle rest

/-- Mirrors `re.search(r"command not found", stderr, re.IGNORECASE)`: a
case-insensitive substring search (the hay is lowercased; the needle already
is lowercase). -/
def containsCommandNotFound (stderr : String) : Bool :=
  listInfixB "command not found".data (stderr.data.map Char.toLower)

/-- Outcome of spawning `<cmd> --version`: either the executable was missing
(`FileNotFoundError` from `Popen`) or the process ran and yielded captured
stdout, stderr and a return code. -/
inductive ProbeEnv where
  | notFound
  | ran (stdout stderr : String) (returncode : Int)
deriving Repr, DecidableEq

/-- Mirrors the default `DevToolDeploy.exists`: report command-not-found as
absent, extract a version from stdout when possible (mutating
`curr_version`), treat a missing `min_version` as presence-only, and demand
`returncode == 0` together with a resolvable, sufficient version otherwise.
`Except.error` models the uncaught `ValueError` that `version_lt` would raise
on a malformed `min_version`. -/
def DevToolDeploy_exists (dtd : DevToolDescriptor) (env : ProbeEnv) :
    Except String (Bool × DevToolDescriptor) :=
  match env with
  | .notFound => .ok (false, dtd)
  | .ran stdout stderr rc =>
    if containsCommandNotFound stderr then .ok (false, dtd)
    else
      match searchVersion stdout with
      | some v =>
        let dtd' := { dtd with curr_version := v }
        if dtd'.min_version.length == 0 then .ok (true, dtd')
        else if rc != 0 then .ok (false, dtd')
        else
          match version_lt dtd'.curr_version dtd'.min_version with
          | none => .error "ValueError"
          | some b => .ok (!b, dtd')
      | none =>
        if dtd.min_version.length == 0 then .ok (true, dtd)
        else .ok (false, dtd)

/-- Mirrors the overriding `exists` of `DTOhMyZsh`, `DTTpm` and `DTVimrc`: a
pure filesystem-presence check on the install prefix that returns the
descriptor untouched. -/
def presence_exists (dtd : DevToolDescriptor) (prefixExists : Bool) :
    Bool × DevToolDescriptor :=
  if prefixExists then (true, dtd) else (false, dtd)

/-- Mirrors the default `DevToolDeploy.download`, which is `return True`. -/
def DevToolDeploy_download : Bool := true

/-- The lifecycle hooks invoked by `DevToolDeploy.deploy`. -/
inductive Hook where
  | download
  | unpack
  | build
  | install
  | clean
  | configure
  | uninstall
deriving Repr, DecidableEq

/-- Observable events of one `deploy` call: a hook invocation, the
"has existed" report, or the "not installed yet" warning. -/
inductive Event where
  | hook (h : Hook)
  | reportExisted (cmd ver : String)
  | warnNotInstalled (cmd : String)
deriving Repr, DecidableEq

/-- Trace of `DevToolDeploy.deploy`, given the direction flag, the boolean the
probe returned and the boolean the download hook returned.  Mirrors the
control flow line by line: uninstall direction runs `uninstall` or warns;
install direction either reports an existing tool, or runs the acquisition
chain — returning early (skipping even `configure`) when `download` fails. -/
def deployEvents (dtd : DevToolDescriptor) (uninst exists_ downloadOk : Bool) :
    List Event :=
  if uninst then
    if exists_ then [.hook .uninstall]
    else [.warnNotInstalled dtd.cmd]
  else
    if exists_ then [.reportExisted dtd.cmd dtd.curr_version, .hook .configure]
    else
      if !downloadOk then [.hook .download]
      else [.hook .download, .hook .unpack, .hook .build, .hook .install,
            .hook .clean, .hook .configure]

/-- Number of invocations of a given hook in a trace. -/
def countHook (evs : List Event) (h : Hook) : Nat :=
  evs.countP fun e =>
    match e with
    | .hook h2 => h2 == h
    | _ => false

/-- The zsh catalog entry: `DevToolDescriptor("zsh", "zsh", "", "5.0.8")`. -/
def zshDtd : DevToolDescriptor :=
  { pkgname := "zsh", cmd := "zsh", version := "", min_version := "5.0.8" }

/-- The ohmyzsh catalog entry, with `prefix = os.path.join(HOME, ".oh-my-zsh")`
(the runtime `HOME` is a parameter). -/
def ohmyzshDtd (home : String) : DevToolDescriptor :=
  { pkgname := "ohmyzsh", cmd := "ohmyzsh", version := "",
    url := some "git@github.com:ohmyzsh/ohmyzsh.git",
    pfx := some (home ++ "/.oh-my-zsh") }

/-- The tpm catalog entry, with
`prefix = os.path.join(HOME, ".tmux", "plugins", "tpm")`. -/
def tpmDtd (home : String) : DevToolDescriptor :=
  { pkgname := "tpm", cmd := "tpm", version := "",
    url := some "git@github.com:tmux-plugins/tpm.git",
    pfx := some (home ++ "/.tmux/plugins/tpm") }

/-- The vimrc catalog entry, with branch `cscope-maps` and
`prefix = os.path.join(HOME, ".vim_runtime")`. -/
def vimrcDtd (home : String) : DevToolDescriptor :=
  { pkgname := "vimrc", cmd := "vimrc", version := "",
    url := some "git@github.com:lucmann/vimrc.git", branch := "cscope-maps",
    pfx := some (home ++ "/.vim_runtime") }

/-- The filesystem state touched by the tpm specialization: the install
prefix `~/.tmux/plugins/tpm`, the directory `~/.tmux`, and the resource file
`~/.tmux.conf`. -/
structure TmuxFS where
  prefixExists : Bool
  tmuxDirExists : Bool
  confExists : Bool
deriving Repr, DecidableEq

/-- Mirrors `DTTpm.uninstall`: two `shutil.rmtree(..., ignore_errors=True)`
calls that cannot raise, then a bare `os.remove(self.conf)` that raises
`FileNotFoundError` when `~/.tmux.conf` is absent — there is no handler, so
the error escapes the hook. -/
def DTTpm_uninstall (fs : TmuxFS) : Except String TmuxFS :=
  let fs1 : TmuxFS := { fs with prefixExists := false, tmuxDirExists := false }
  if fs1.confExists then .ok { fs1 with confExists := false }
  else .error "FileNotFoundError"

/-- Mirrors `DTTpm.exists`: `os.path.exists(self.dtd.prefix)`. -/
def DTTpm_exists (fs : TmuxFS) : Bool := fs.prefixExists

/-- The uninstall direction of `deploy` for the tpm specialization: probe the
prefix, then either run the uninstall hook (whose exception propagates — the
driver wraps nothing in a handler) or warn and do nothing. -/
def DTTpm_deploy_uninst (fs : TmuxFS) : Except String TmuxFS :=
  if DTTpm_exists fs then DTTpm_uninstall fs else .ok fs

/-- The `for dt in dt_list: ... devtool_deploy(dt, ...)` loop at module level:
tools run strictly in sequence and nothing catches an exception escaping
`deploy`, so an error stops the loop.  Returns how many tools were processed
(the raiser included) and the escaped exception, if any. -/
def runToolList : List (Except String Unit) → Nat × Option String
  | [] => (0, none)
  | r :: rs =>
    match r with
    | .ok _ => let (n, e) := runToolList rs; (n + 1, e)
    | .error m => (1, some m)

/-- The text `inspect.cleandoc` produces from the `config` literal inside
`DTTpm.configure`: the three plugin lines, a blank line, and the run line,
with the common indentation removed and no trailing newline. -/
def tpmConfigText : String :=
  "set -g @plugin \x27tmux-plugins/tpm\x27\n" ++
  "set -g @plugin \x27tmux-plugins/tmux-sensible\x27\n" ++
  "set -g @plugin \x27tmux-plugins/tmux-resurrect\x27\n\n" ++
  "run \x27~/.tmux/plugins/tpm/tpm\x27"

/-- Mirrors `DTTpm.configure`: open `~/.tmux.conf` in append mode and write
the cleaned-up config block — unconditionally, with no containment check. -/
def DTTpm_configure (conf : String) : String := conf ++ tpmConfigText

/-- Modelled from the spec: no privilege gate exists in `src/devtools.py`
(no specialization declares a required privilege level and `deploy` checks
none), so the gate described in the spec is modelled from its words.  A tool
may declare a required privilege level (`none` = no declaration). -/
structure GatedTool where
  name : String
  requiresElevated : Option Bool
deriving Repr, DecidableEq

/-- Events of the spec-modelled gated driver: an existence probe or a
lifecycle hook of a named tool. -/
inductive GEvent where
  | probed (tool : String)
  | ranHook (tool : String) (h : Hook)
deriving Repr, DecidableEq

/-- Modelled from the spec: the full per-tool lifecycle, probe first, then
the ordered hooks. -/
def toolLifecycleEvents (t : GatedTool) : List GEvent :=
  GEvent.probed t.name ::
    ([Hook.download, Hook.unpack, Hook.build, Hook.install, Hook.clean,
      Hook.configure].map (GEvent.ranHook t.name))

/-- Modelled from the spec: the gate passes when the tool declares no
privilege requirement or the declared level matches the actual one. -/
def gatePasses (elevated : Bool) (t : GatedTool) : Bool :=
  match t.requiresElevated with
  | none => true
  | some r => r == elevated

/-- Modelled from the spec: run the selected tools in sequence; the gate
precedes each tool's probe, and a mismatch aborts the whole invocation with
exit code 1 before any probe or hook of that tool runs. -/
def runGatedCatalog (elevated : Bool) : List GatedTool → List GEvent × Nat
  | [] => ([], 0)
  | t :: ts =>
    if gatePasses elevated t then
      let (evs, code) := runGatedCatalog elevated ts
      (toolLifecycleEvents t ++ evs, code)
    else ([], 1)

/-- Events of the module-level entry point: the only thing it does per
catalog entry is deploy it when its `cmd` is among the positional
arguments. -/
inductive MainEvent where
  | deployed (cmd : String)
deriving Repr, DecidableEq

/-- Mirrors the `for dt in dt_list: if dt.dtd.cmd in args.dtools: ...` loop:
every catalog command contained in the argument list is deployed, in catalog
order; nothing at all is emitted for argument names that match no entry. -/
def mainLoop (catalog : List String) (dtools : List String) : List MainEvent :=
  match catalog with
  | [] => []
  | c :: cs =>
    if dtools.contains c then .deployed c :: mainLoop cs dtools
    else mainLoop cs dtools

/-- The `cmd` fields of the `dt_list` catalog in `__main__`, in order. -/
def catalogCmds : List String :=
  ["ack", "ag", "autojump", "cmake", "cscope", "ctags", "fzf", "gcc", "g++",
   "gdb", "git", "meson", "pip3", "zsh", "ohmyzsh", "tmux", "tpm", "vimrc"]

/-- C1: when the existence probe reports a tool satisfied, the install
direction of `deploy` invokes none of the download, unpack, build, install or
clean hooks, and invokes configure exactly once (after the "has existed"
report), whatever the download hook would have returned. -/
theorem satisfied_probe_runs_only_configure (dtd : DevToolDescriptor) (dl : Bool) :
    deployEvents dtd false true dl =
      [Event.reportExisted dtd.cmd dtd.curr_version, Event.hook Hook.configure] ∧
    countHook (deployEvents dtd false true dl) Hook.download = 0 ∧
    countHook (deployEvents dtd false true dl) Hook.unpack = 0 ∧
    countHook (deployEvents dtd false true dl) Hook.build = 0 ∧
    countHook (deployEvents dtd false true dl) Hook.install = 0 ∧
    countHook (deployEvents dtd false true dl) Hook.clean = 0 ∧
    countHook (deployEvents dtd false true dl) Hook.configure = 1 := by
  refine ⟨rfl, ?_, ?_, ?_, ?_, ?_, ?_⟩ <;> rfl

/-- C2: when the download (acquire) hook returns failure on a tool the probe
did not report satisfied, `deploy` returns immediately: the trace holds the
failed download invocation only, and unpack, build, install, clean and
configure are never invoked. -/
theorem acquire_failure_skips_rest (dtd : DevToolDescriptor) :
    deployEvents dtd false false false = [Event.hook Hook.download] ∧
    countHook (deployEvents dtd false false false) Hook.unpack = 0 ∧
    countHook (deployEvents dtd false false false) Hook.build = 0 ∧
    countHook (deployEvents dtd false false false) Hook.install = 0 ∧
    countHook (deployEvents dtd false false false) Hook.clean = 0 ∧
    countHook (deployEvents dtd false false false) Hook.configure = 0 := by
  refine ⟨rfl, ?_, ?_, ?_, ?_, ?_⟩ <;> rfl

/-- C3 counterexample: the claim states `version_lt` is false in both
directions on `"5.0"` and `"5.0.0"`, but Python tuple comparison makes the
shorter tuple `(5, 0)` strictly smaller than `(5, 0, 0)`. -/
theorem version_lt_five_zero_lt_five_zero_zero :
    version_lt "5.0" "5.0.0" = some true := by decide

/-- C3 amended: the comparator orders `"5.0.8" = "5.0.8"`,
`"5.0.7" < "5.0.8"` and `"5.1" > "5.0.99"` as claimed, but `"5.0"` is
strictly less than `"5.0.0"` (a proper-prefix tuple is smaller), not equal
to it. -/
theorem version_lt_spec_examples :
    version_lt "5.0.8" "5.0.8" = some false ∧
    version_lt "5.0.7" "5.0.8" = some true ∧
    version_lt "5.0.8" "5.0.7" = some false ∧
    version_lt "5.0.99" "5.1" = some true ∧
    version_lt "5.1" "5.0.99" = some false ∧
    version_lt "5.0" "5.0.0" = some true ∧
    version_lt "5.0.0" "5.0" = some false := by decide

/-- C4 counterexample: with output `"zsh 5.0.8"` the extracted version equals
`minVersion` (so `version_lt` is false), yet a nonzero return code makes the
probe report not-satisfied — refuting "satisfied if and only if the extracted
version is greater than or equal to minVersion". -/
theorem probe_nonzero_exit_not_satisfied :
    DevToolDeploy_exists zshDtd (ProbeEnv.ran "zsh 5.0.8" "" 1) =
      .ok (false, { zshDtd with curr_version := "5.0.8" }) ∧
    version_lt "5.0.8" zshDtd.min_version = some false :=
  ⟨rfl, by decide⟩

/-- C4 amended: when a version is extractable (and stderr shows no
command-not-found), the probe stores it into `curr_version` and reports
satisfied iff the process exited with return code 0 AND the extracted version
is at least `minVersion`; in the zsh end-to-end scenario (output
`"zsh 4.3.11"`, exit 0) the probe reports insufficient and the full install
sequence runs with install invoked once and configure invoked once. -/
theorem probe_satisfied_iff_rc_zero_and_version_ge
    (dtd : DevToolDescriptor) (out err v : String) (rc : Int) (ltv : Bool)
    (hmin : dtd.min_version.length ≠ 0)
    (herr : containsCommandNotFound err = false)
    (hv : searchVersion out = some v)
    (hlt : version_lt v dtd.min_version = some ltv) :
    DevToolDeploy_exists dtd (.ran out err rc) =
      .ok (((rc == 0) && !ltv), { dtd with curr_version := v }) ∧
    DevToolDeploy_exists zshDtd (.ran "zsh 4.3.11" "" 0) =
      .ok (false, { zshDtd with curr_version := "4.3.11" }) ∧
    countHook (deployEvents zshDtd false false DevToolDeploy_download) Hook.install = 1 ∧
    countHook (deployEvents zshDtd false false DevToolDeploy_download) Hook.configure = 1 := by
  have hmin' : (dtd.min_version.length == 0) = false := beq_eq_false_iff_ne.mpr hmin
  refine ⟨?_, rfl, rfl, rfl⟩
  by_cases hrc : rc = 0
  · subst hrc
    simp [DevToolDeploy_exists, herr, hv, hmin', hlt]
  · have hrc' : (rc == 0) = false := beq_eq_false_iff_ne.mpr hrc
    simp [DevToolDeploy_exists, herr, hv, hmin', hlt, hrc', bne]

/-- C4 witness: the amended theorem applied to the zsh descriptor on output
`"zsh 4.3.11"` with exit code 0. -/
theorem probe_satisfied_iff_rc_zero_and_version_ge_witness :
    zshDtd.min_version.length ≠ 0 ∧
    DevToolDeploy_exists zshDtd (.ran "zsh 4.3.11" "" 0) =
      .ok ((((0 : Int) == 0) && !true), { zshDtd with curr_version := "4.3.11" }) :=
  ⟨by decide,
   (probe_satisfied_iff_rc_zero_and_version_ge zshDtd "zsh 4.3.11" "" "4.3.11" 0 true
     (by decide) (by decide) (by decide) (by decide)).1⟩

/-- C5 counterexample: with the tpm prefix present and `~/.tmux.conf` absent,
the uninstall hook's bare `os.remove` raises; nothing catches the error at
the hook boundary, and the catalog loop stops before the next tool — the
second (healthy) tool is never processed. -/
theorem tpm_uninstall_error_uncaught_concrete :
    DTTpm_deploy_uninst ⟨true, true, false⟩ = .error "FileNotFoundError" ∧
    runToolList [(DTTpm_deploy_uninst ⟨true, true, false⟩).map (fun _ => ()),
                 .ok ()] = (1, some "FileNotFoundError") :=
  ⟨rfl, rfl⟩

/-- C5 amended: hook failures are caught only where a hook body installs its
own handler; the driver catches nothing at the hook boundary, and the tpm
uninstall hook's unguarded `os.remove` raises whenever the tmux resource file
is absent, aborting the processing of all remaining tools in the run. -/
theorem tpm_uninstall_error_aborts_rest
    (fs : TmuxFS) (rest : List (Except String Unit))
    (hp : fs.prefixExists = true) (hc : fs.confExists = false) :
    DTTpm_deploy_uninst fs = .error "FileNotFoundError" ∧
    runToolList ((DTTpm_deploy_uninst fs).map (fun _ => ()) :: rest) =
      (1, some "FileNotFoundError") := by
  have h1 : DTTpm_deploy_uninst fs = .error "FileNotFoundError" := by
    simp [DTTpm_deploy_uninst, DTTpm_exists, DTTpm_uninstall, hp, hc]
  exact ⟨h1, by rw [h1]; rfl⟩

/-- C5 witness: the amended theorem applied to the state with the prefix
present, the `.tmux` directory present and the conf file absent, followed by
one healthy tool. -/
theorem tpm_uninstall_error_aborts_rest_witness :
    (⟨true, true, false⟩ : TmuxFS).prefixExists = true ∧
    runToolList ((DTTpm_deploy_uninst ⟨true, true, false⟩).map (fun _ => ()) ::
      [Except.ok ()]) = (1, some "FileNotFoundError") :=
  ⟨by decide,
   (tpm_uninstall_error_aborts_rest ⟨true, true, false⟩ [Except.ok ()]
     (by decide) (by decide)).2⟩

/-- C6: a command-style probe that runs the command (no command-not-found in
stderr) but extracts no version from stdout returns not-satisfied whenever
`minVersion` is set, leaving the descriptor untouched, and the driver then
runs the full install sequence download, unpack, build, install, clean (the
default download hook returns True) followed by configure. -/
theorem no_version_with_min_reinstalls
    (dtd : DevToolDescriptor) (out err : String) (rc : Int)
    (hmin : dtd.min_version.length ≠ 0)
    (herr : containsCommandNotFound err = false)
    (hv : searchVersion out = none) :
    DevToolDeploy_exists dtd (.ran out err rc) = .ok (false, dtd) ∧
    deployEvents dtd false false DevToolDeploy_download =
      [Event.hook Hook.download, Event.hook Hook.unpack, Event.hook Hook.build,
       Event.hook Hook.install, Event.hook Hook.clean, Event.hook Hook.configure] := by
  have hmin' : (dtd.min_version.length == 0) = false := beq_eq_false_iff_ne.mpr hmin
  exact ⟨by simp [DevToolDeploy_exists, herr, hv, hmin'], rfl⟩

/-- C6 witness: the zsh descriptor probed with noisy, versionless output. -/
theorem no_version_with_min_reinstalls_witness :
    zshDtd.min_version.length ≠ 0 ∧
    DevToolDeploy_exists zshDtd (.ran "zsh: bad option" "" 0) = .ok (false, zshDtd) :=
  ⟨by decide,
   (no_version_with_min_reinstalls zshDtd "zsh: bad option" "" 0
     (by decide) (by decide) (by decide)).1⟩

/-- C7: in the spec-modelled gated driver, a tool whose declared privilege
requirement mismatches the actual level stops the whole invocation with exit
code 1, and neither its probe nor any of its hooks (nor those of any later
tool) ever run: the event log is exactly that of the earlier, gate-passing
tools. -/
theorem privilege_gate_aborts_before_hooks
    (elevated : Bool) (pre post : List GatedTool) (t : GatedTool)
    (hpre : ∀ u ∈ pre, gatePasses elevated u = true)
    (ht : gatePasses elevated t = false) :
    runGatedCatalog elevated (pre ++ t :: post) =
      ((pre.map toolLifecycleEvents).flatten, 1) := by
  induction pre with
  | nil => simp [runGatedCatalog, ht]
  | cons u us ih =>
    have hu : gatePasses elevated u = true := hpre u (List.mem_cons_self u us)
    have hus : ∀ v ∈ us, gatePasses elevated v = true :=
      fun v hv => hpre v (List.mem_cons_of_mem u hv)
    simp [runGatedCatalog, hu, ih hus]

/-- C7 witness: the gated theorem applied to a run, as non-root, of a
privilege-free tool followed by a root-requiring tool and one more tool. -/
theorem privilege_gate_aborts_before_hooks_witness :
    gatePasses false ⟨"rootTool", some true⟩ = false ∧
    runGatedCatalog false
      [⟨"git", none⟩, ⟨"rootTool", some true⟩, ⟨"tmux", none⟩] =
      (([(⟨"git", none⟩ : GatedTool)].map toolLifecycleEvents).flatten, 1) :=
  ⟨by decide,
   privilege_gate_aborts_before_hooks false [⟨"git", none⟩] [⟨"tmux", none⟩]
     ⟨"rootTool", some true⟩ (by decide) (by decide)⟩

/-- C8: `DTTpm.configure` is not idempotent: after one run on an empty conf
file the plugin block is already contained in the file, yet a second run
appends it again, so configure-twice differs from configure-once. -/
theorem tpm_configure_not_idempotent :
    listInfixB tpmConfigText.data (DTTpm_configure "").data = true ∧
    DTTpm_configure (DTTpm_configure "") ≠ DTTpm_configure "" := by
  exact ⟨by decide, by decide⟩

/-- Arguments matching no catalog command deploy nothing at all. -/
theorem mainLoop_single_unmatched (catalog : List String) (x : String)
    (hx : ∀ c ∈ catalog, c ≠ x) : mainLoop catalog [x] = [] := by
  induction catalog with
  | nil => rfl
  | cons c cs ih =>
    have hc : c ≠ x := hx c (List.mem_cons_self c cs)
    have ih' := ih fun d hd => hx d (List.mem_cons_of_mem c hd)
    simp [mainLoop, List.contains_cons, hc, ih']

/-- Dropping an unmatched argument from the argument list leaves the deploy
sequence unchanged. -/
theorem mainLoop_drop_unmatched (catalog pre post : List String) (x : String)
    (hx : ∀ c ∈ catalog, c ≠ x) :
    mainLoop catalog (pre ++ x :: post) = mainLoop catalog (pre ++ post) := by
  induction catalog with
  | nil => rfl
  | cons c cs ih =>
    have hc : c ≠ x := hx c (List.mem_cons_self c cs)
    have ih' := ih fun d hd => hx d (List.mem_cons_of_mem c hd)
    simp [mainLoop, List.contains_cons, hc, ih']

/-- C9: a positional argument that matches no catalog entry's command is
silently ignored: on its own it deploys nothing (and the loop emits no
diagnostic — deploys are the only events it produces), and removing it from
any argument list leaves the run over the matched names unchanged. -/
theorem unmatched_arg_silently_ignored
    (catalog pre post : List String) (x : String)
    (hx : ∀ c ∈ catalog, c ≠ x) :
    mainLoop catalog [x] = [] ∧
    mainLoop catalog (pre ++ x :: post) = mainLoop catalog (pre ++ post) :=
  ⟨mainLoop_single_unmatched catalog x hx,
   mainLoop_drop_unmatched catalog pre post x hx⟩

/-- C9 witness: the real catalog with the unmatched argument `emacs` between
two matched ones. -/
theorem unmatched_arg_silently_ignored_witness :
    (∀ c ∈ catalogCmds, c ≠ "emacs") ∧ mainLoop catalogCmds ["emacs"] = [] :=
  ⟨by decide,
   (unmatched_arg_silently_ignored catalogCmds ["zsh"] ["tmux"] "emacs"
     (by decide)).1⟩

/-- C10: the filesystem-presence probe shared by ohmyzsh, tpm and vimrc
returns the descriptor unchanged (in the source it is the only probe variant
that never assigns `curr_version`, which no lifecycle hook writes either), so
those catalog descriptors keep `curr_version = ""` and their "has existed"
report carries the empty version. -/
theorem presence_probe_preserves_curr_version :
    (∀ (dtd : DevToolDescriptor) (b : Bool), presence_exists dtd b = (b, dtd)) ∧
    (∀ home : String,
      (ohmyzshDtd home).curr_version = "" ∧
      (tpmDtd home).curr_version = "" ∧
      (vimrcDtd home).curr_version = "" ∧
      (∀ dl : Bool,
        deployEvents (ohmyzshDtd home) false true dl =
          [Event.reportExisted "ohmyzsh" "", Event.hook Hook.configure] ∧
        deployEvents (tpmDtd home) false true dl =
          [Event.reportExisted "tpm" "", Event.hook Hook.configure] ∧
        deployEvents (vimrcDtd home) false true dl =
          [Event.reportExisted "vimrc" "", Event.hook Hook.configure])) := by
  refine ⟨fun dtd b => ?_, fun home => ⟨rfl, rfl, rfl, fun dl => ⟨rfl, rfl, rfl⟩⟩⟩
  cases b <;> rfl

